import Mathlib

/-
Verification of the greendo GDO client (greendo.py, a Python 2 program).

The data model and command-mapping core of the program is embedded shallowly:
JSON values deserialized by the client become the inductive `JVal` (Python 2
conflates JSON null with Python None, so both are `jnull`); attribute lookup
(`_Attr.maybe`), the module decoders (`_Door.door_status`, `_Door.door_error`),
device construction (`Device.init`) and the command-payload builders
(`Device.cmd_open`, `Device.cmd_preset_pos`, `Device.cmd_fan`,
`Device.cmd_vacation`, ...) are transcribed from the source, with Python
exceptions (AttributeError on missing attributes or on `.get` of a non-dict)
modelled as `Except.error`.
-/

namespace Greendo

/-- JSON-like values as deserialized by `json.loads` in Python 2.
JSON `null` is deserialized to Python `None`; both are `jnull` here. -/
inductive JVal where
  | jnull
  | jbool (b : Bool)
  | jint (n : Int)
  | jstr (s : String)
  | jobj (fields : List (String × JVal))

/-- Python `is None` test. -/
def pyIsNone : JVal → Bool
  | .jnull => true
  | _ => false

/-- Python `d.get(key)` on a dict: the bound value, or `None` when the key is
absent. An explicit null binding and a missing key both yield `jnull`. -/
def dictGet : List (String × JVal) → String → JVal
  | [], _ => .jnull
  | (k, v) :: rest, key => if k == key then v else dictGet rest key

/-- Python `val.get(key)`: only dicts have a `.get` method; on any other value
the attribute access raises `AttributeError`, modelled as `Except.error ()`. -/
def pyGet : JVal → String → Except Unit JVal
  | .jobj fs, key => .ok (dictGet fs key)
  | _, _ => .error ()

/-- The loop of `_Attr.maybe` (greendo.py:87-91): for each path element,
`val = val.get(p)`; return `None` as soon as `val` is `None`. -/
def maybeGo : JVal → List String → Except Unit (Option JVal)
  | v, [] => .ok (some v)
  | v, p :: rest =>
    match pyGet v p with
    | .error e => .error e
    | .ok v' => if pyIsNone v' then .ok none else maybeGo v' rest

/-- `_Attr.valid` (greendo.py:93-95): whether the attribute holds any data. -/
def _Attr.valid (data : JVal) : Bool := !pyIsNone data

/-- `_Attr.maybe` (greendo.py:75-91): drill into a nested dictionary along a
key path, returning `None` (here `Option.none`) for missing data.  The
`Except` layer records the Python exception raised when `.get` is called on a
non-dict value. -/
def _Attr.maybe (data : JVal) (path : List String) : Except Unit (Option JVal) :=
  if _Attr.valid data then maybeGo data path else .ok none

/-- Spec-side total lookup, for comparison with `_Attr.maybe`: not-found when
the tree is null or the path runs into a missing/null entry or past a
non-mapping leaf, the leaf value otherwise; never an error. -/
def lookupPath : JVal → List String → Option JVal
  | v, [] => if pyIsNone v then none else some v
  | .jobj fs, p :: rest => lookupPath (dictGet fs p) rest
  | _, _ :: _ => none

/-- Paths whose traversal of the tree only ever calls `.get` on dicts
(so `_Attr.maybe` cannot raise on them). -/
def wellPathed : JVal → List String → Bool
  | _, [] => true
  | .jobj fs, p :: rest =>
    if pyIsNone (dictGet fs p) then true else wellPathed (dictGet fs p) rest
  | _, _ :: _ => false

/-- `_Module.port` (greendo.py:100-102). -/
def _Module.port (data : JVal) : Except Unit (Option JVal) :=
  _Attr.maybe data ["portId", "value"]

/-- `_Module.module` (greendo.py:104-106). -/
def _Module.module (data : JVal) : Except Unit (Option JVal) :=
  _Attr.maybe data ["moduleId", "value"]

/-- `_Door.max_pos` (greendo.py:125-127). -/
def _Door.max_pos (data : JVal) : Except Unit (Option JVal) :=
  _Attr.maybe data ["maxDoorPosition", "value"]

/-- `_Door.vacation` (greendo.py:149-151): how vacation status is read. -/
def _Door.vacation (data : JVal) : Except Unit (Option JVal) :=
  _Attr.maybe data ["vacationMode", "value"]

/-- Python 2 `x == n` for a lookup result `x` (possibly `None`) against an int
literal `n`: `None == n` is `False`; a bool compares as its numeric value
(`False == 0` and `True == 1` are `True` in Python); strings and dicts never
equal an int. -/
def pyEqInt : Option JVal → Int → Bool
  | some (.jint m), n => m == n
  | some (.jbool b), n => (if b then (1 : Int) else 0) == n
  | _, _ => false

/-- `_Door.door_status` (greendo.py:153-163). -/
def _Door.door_status (data : JVal) : Except Unit String :=
  match _Attr.maybe data ["doorState", "value"] with
  | .error e => .error e
  | .ok state =>
    .ok (if pyEqInt state 0 then "closed"
         else if pyEqInt state 1 then "open"
         else if pyEqInt state 2 then "closing"
         else "opening")

/-- `_Door.door_error` (greendo.py:165-173); the fall-through branch of the
Python if/elif chain returns `None` implicitly. -/
def _Door.door_error (data : JVal) : Except Unit (Option String) :=
  match _Attr.maybe data ["opMode", "value"] with
  | .error e => .error e
  | .ok mode =>
    .ok (if pyEqInt mode 0 then none
         else if pyEqInt mode 1 then some "error"
         else if pyEqInt mode 2 then some "locked"
         else none)

/-- Python `k.startswith(p)`. -/
def startswith (k p : String) : Bool :=
  p.toList.isPrefixOf k.toList

/-- A `Device` (greendo.py:202-242): the module attributes assigned by
`Device.__init__`.  Each module slot holds the raw attribute data of the
matched key, or `none` when no key of that category was present. -/
structure Device where
  varName : String
  master : Option JVal := none
  charger : Option JVal := none
  door : Option JVal := none
  fan : Option JVal := none
  wifi : Option JVal := none
  light : Option JVal := none

/-- One iteration of the classification loop of `Device.__init__`
(greendo.py:227-242); an unrecognized key is logged, never fatal. -/
def initStep : Device × List String → String × JVal → Device × List String
  | (d, log), (k, v) =>
    if k == "masterUnit" then ({ d with master := some v }, log)
    else if startswith k "backupCharger_" then ({ d with charger := some v }, log)
    else if startswith k "garageDoor_" then ({ d with door := some v }, log)
    else if startswith k "fan_" then ({ d with fan := some v }, log)
    else if startswith k "wifiModule_" then ({ d with wifi := some v }, log)
    else if startswith k "garageLight_" then ({ d with light := some v }, log)
    else (d, log ++ [k])

/-- `Device.__init__` (greendo.py:216-242) over the `attributes` map of the
device details, given as a key/value list; returns the constructed device and
the list of unknown module keys that were logged. -/
def Device.init (varName : String) (attributes : List (String × JVal)) :
    Device × List String :=
  attributes.foldl initStep ({ varName := varName }, [])

/-- The six classification conditions of `Device.__init__`, indexed in source
order: `masterUnit` exact match, then the five key prefixes. -/
def condAt : Fin 6 → String → Bool
  | ⟨0, _⟩, k => k == "masterUnit"
  | ⟨1, _⟩, k => startswith k "backupCharger_"
  | ⟨2, _⟩, k => startswith k "garageDoor_"
  | ⟨3, _⟩, k => startswith k "fan_"
  | ⟨4, _⟩, k => startswith k "wifiModule_"
  | ⟨5, _⟩, k => startswith k "garageLight_"
  | ⟨n + 6, h⟩, _ => absurd h (by omega)

/-- A command payload (greendo.py:244-256): the JSON-RPC envelope built by
`Device._module_cmd_payload`. -/
structure Payload where
  jsonrpc : String
  method : String
  msgType : Int
  moduleType : Option JVal
  portId : Option JVal
  topic : String
  moduleMsg : List (String × JVal)

/-- Python attribute access `self.<name>` on a `Device` for the module-valued
attributes: `__init__` assigns exactly `meta`, `data`, `charger`, `door`,
`master`, `fan`, `wifi` and `light`; accessing any other attribute name (such
as `vacation`) raises `AttributeError`. -/
def Device.moduleAttr (d : Device) : String → Except Unit (Option JVal)
  | "master" => .ok d.master
  | "charger" => .ok d.charger
  | "door" => .ok d.door
  | "fan" => .ok d.fan
  | "wifi" => .ok d.wifi
  | "light" => .ok d.light
  | _ => .error ()

/-- `Device._module_cmd_payload` (greendo.py:244-256).  When the module slot is
`None`, the calls `module.module()` / `module.port()` raise `AttributeError`. -/
def Device._module_cmd_payload (d : Device) (module : Option JVal)
    (msg : List (String × JVal)) : Except Unit Payload :=
  match module with
  | none => .error ()
  | some md =>
    match _Module.module md, _Module.port md with
    | .ok mt, .ok pt =>
      .ok { jsonrpc := "2.0", method := "gdoModuleCommand", msgType := 16,
            moduleType := mt, portId := pt, topic := d.varName, moduleMsg := msg }
    | .error e, _ => .error e
    | .ok _, .error e => .error e

/-- `Device.cmd_open` (greendo.py:267-270); note the command code is the JSON
string "1", not the integer 1. -/
def Device.cmd_open (d : Device) : Except Unit Payload :=
  match d.moduleAttr "door" with
  | .error e => .error e
  | .ok m => d._module_cmd_payload m [("doorCommand", .jstr "1")]

/-- `Device.cmd_close` (greendo.py:272-275). -/
def Device.cmd_close (d : Device) : Except Unit Payload :=
  match d.moduleAttr "door" with
  | .error e => .error e
  | .ok m => d._module_cmd_payload m [("doorCommand", .jstr "0")]

/-- `Device.cmd_preset` (greendo.py:277-280). -/
def Device.cmd_preset (d : Device) : Except Unit Payload :=
  match d.moduleAttr "door" with
  | .error e => .error e
  | .ok m => d._module_cmd_payload m [("doorCommand", .jstr "2")]

/-- Python 2 `max(0, min(m, x))` where `m` is the result of `max_pos()`.  In
CPython 2 a cross-type comparison orders `None` below every number and numbers
below every non-number (bools are numbers), so `min(None, x) = None` and
`max(0, None) = 0`, while a string or dict bound acts as plus infinity. -/
def py2PresetClamp : Option JVal → Int → Int
  | none, _ => 0
  | some .jnull, _ => 0
  | some (.jbool b), x => max 0 (min (if b then 1 else 0) x)
  | some (.jint m), x => max 0 (min m x)
  | some (.jstr _), x => max 0 x
  | some (.jobj _), x => max 0 x

/-- `Device.cmd_preset_pos` (greendo.py:282-285): clamps the requested position
by `max(0, min(self.door.max_pos(), int(pos)))`.  When `self.door` is `None`
the `max_pos` call raises before the payload is built. -/
def Device.cmd_preset_pos (d : Device) (pos : Int) : Except Unit Payload :=
  match d.moduleAttr "door" with
  | .error e => .error e
  | .ok none => .error ()
  | .ok (some dd) =>
    match _Door.max_pos dd with
    | .error e => .error e
    | .ok m =>
      d._module_cmd_payload (some dd)
        [("presetPosition", .jint (py2PresetClamp m pos))]

/-- `Device.cmd_light` (greendo.py:287-290). -/
def Device.cmd_light (d : Device) (b : Bool) : Except Unit Payload :=
  match d.moduleAttr "light" with
  | .error e => .error e
  | .ok m => d._module_cmd_payload m [("lightState", .jbool b)]

/-- `Device.cmd_light_timer` (greendo.py:292-295): no clamping. -/
def Device.cmd_light_timer (d : Device) (time : Int) : Except Unit Payload :=
  match d.moduleAttr "light" with
  | .error e => .error e
  | .ok m => d._module_cmd_payload m [("lightTimer", .jint time)]

/-- `Device.cmd_vacation` (greendo.py:297-300): reads `self.vacation`, an
attribute `__init__` never assigns, so the access raises `AttributeError`
before any payload is built. -/
def Device.cmd_vacation (d : Device) (b : Bool) : Except Unit Payload :=
  match d.moduleAttr "vacation" with
  | .error e => .error e
  | .ok m => d._module_cmd_payload m [("vacationMode", .jbool b)]

/-- `Device.cmd_motion` (greendo.py:302-305). -/
def Device.cmd_motion (d : Device) (b : Bool) : Except Unit Payload :=
  match d.moduleAttr "door" with
  | .error e => .error e
  | .ok m => d._module_cmd_payload m [("motionSensor", .jbool b)]

/-- `Device.cmd_fan` (greendo.py:307-310): `min(100, max(0, int(speed)))`. -/
def Device.cmd_fan (d : Device) (speed : Int) : Except Unit Payload :=
  match d.moduleAttr "fan" with
  | .error e => .error e
  | .ok m => d._module_cmd_payload m [("speed", .jint (min 100 (max 0 speed)))]

/-- Python truthiness (`if not x`): `None`, `False`, `0`, `""` and empty
containers are falsy; everything else is truthy. -/
def pyTruthy : JVal → Bool
  | .jnull => false
  | .jbool b => b
  | .jint n => n != 0
  | .jstr s => s != ""
  | .jobj fs => !fs.isEmpty

/-- The socket-authorization checks of `Client.__init__` (greendo.py:360-368),
as a function of the parsed handshake reply.  `ValueError` and the
`AttributeError` raised by `.get` on a non-dict are both modelled as
`Except.error` with a message, since the bare `except` catches both. -/
def wsAuthCheck (ws_auth : JVal) : Except String Unit :=
  if !pyTruthy ws_auth then .error "no socket auth returned"
  else
    match pyGet ws_auth "params" with
    | .error _ => .error "AttributeError"
    | .ok params =>
      if !pyTruthy params then .error "no socket auth params received"
      else
        match pyGet params "authorized" with
        | .error _ => .error "AttributeError"
        | .ok authorized =>
          if !pyTruthy authorized then .error "socket not authorized"
          else .ok ()

/-- Observable connection actions of `Client.__init__` and `Client.close`. -/
inductive WsAction where
  | connect
  | send
  | closeSocket
  | logout

/-- The tail of `Client.__init__` (greendo.py:349-371): the socket is created
and the auth request sent, then the reply is checked inside `try`; on any
failure the `except` clause runs `self.close()` (which first closes the socket,
then attempts the HTTP logout) and re-raises.  If the logout request itself
fails, `close` raises a `ResponseError` instead, but only after the socket is
closed.  Returns the action trace and the outcome. -/
def clientInitHandshake (reply : JVal) (logoutFails : Bool) :
    List WsAction × Except String Unit :=
  match wsAuthCheck reply with
  | .ok () => ([.connect, .send], .ok ())
  | .error e =>
    ([.connect, .send, .closeSocket, .logout],
     .error (if logoutFails then "logout failed" else e))

/-- The failure condition named by the spec for the handshake reply: the reply
is empty, lacks `params`, or has `params.authorized` not true (not truthy;
note that in Python 2 `1 == True`, so any truthy value passes the check). -/
def badHandshakeReply (reply : JVal) : Prop :=
  reply = .jobj []
  ∨ (∃ fs, reply = .jobj fs ∧ dictGet fs "params" = .jnull)
  ∨ (∃ fs pfs, reply = .jobj fs ∧ dictGet fs "params" = .jobj pfs ∧
      pyTruthy (dictGet pfs "authorized") = false)

end Greendo

namespace Greendo

/-! Helper lemmas shared by the claim theorems. -/

/-- Two lists that are both prefixes of a third are comparable. -/
theorem both_starts : ∀ (p q k : List Char), p.isPrefixOf k = true →
    q.isPrefixOf k = true → p.isPrefixOf q = true ∨ q.isPrefixOf p = true := by
  intro p
  induction p with
  | nil => intro q k h1 h2; left; simp [List.isPrefixOf]
  | cons a p ih =>
    intro q k h1 h2
    cases q with
    | nil => right; simp [List.isPrefixOf]
    | cons b q' =>
      cases k with
      | nil => simp [List.isPrefixOf] at h1
      | cons c k' =>
        simp only [List.isPrefixOf, Bool.and_eq_true, beq_iff_eq] at h1 h2
        obtain ⟨hac, h1'⟩ := h1
        obtain ⟨hbc, h2'⟩ := h2
        subst hac
        subst hbc
        rcases ih q' k' h1' h2' with h | h
        · left; simp [List.isPrefixOf, h]
        · right; simp [List.isPrefixOf, h]

/-- Two incomparable key-prefix patterns never match the same key. -/
theorem startswith_excl {p q : String} (k : String)
    (hk1 : startswith k p = true) (hk2 : startswith k q = true)
    (h1 : p.toList.isPrefixOf q.toList = false)
    (h2 : q.toList.isPrefixOf p.toList = false) :
    False := by
  rcases both_starts p.toList q.toList k.toList hk1 hk2 with h | h
  · exact Bool.noConfusion (h1.symm.trans h)
  · exact Bool.noConfusion (h2.symm.trans h)

/-- The exact match `masterUnit` cannot also match a prefix pattern that does
not match the string `masterUnit` itself. -/
theorem master_excl {p : String} (k : String)
    (h1 : (k == "masterUnit") = true) (h2 : startswith k p = true)
    (hp : startswith "masterUnit" p = false) :
    False := by
  have hk : k = "masterUnit" := eq_of_beq h1
  subst hk
  exact Bool.noConfusion (hp.symm.trans h2)

/-- On a traversal that only meets dicts, the `_Attr.maybe` loop agrees with
the total spec lookup and never raises. -/
theorem maybeGo_wellPathed : ∀ (path : List String) (v : JVal),
    pyIsNone v = false → wellPathed v path = true →
    maybeGo v path = .ok (lookupPath v path) := by
  intro path
  induction path with
  | nil => intro v hv _; simp [maybeGo, lookupPath, hv]
  | cons p rest ih =>
    intro v hv hw
    cases v with
    | jobj fs =>
      simp only [maybeGo, pyGet, lookupPath]
      by_cases hn : pyIsNone (dictGet fs p)
      · have : dictGet fs p = .jnull := by
          cases h : dictGet fs p <;> simp [pyIsNone, h] at hn ⊢
        rw [if_pos hn, this]
        cases rest <;> simp [lookupPath, pyIsNone]
      · rw [if_neg hn]
        have hw' : wellPathed (dictGet fs p) rest = true := by
          simpa [wellPathed, hn] using hw
        exact ih (dictGet fs p) (by simpa using hn) hw'
    | jnull => simp [pyIsNone] at hv
    | jbool b => simp [wellPathed] at hw
    | jint n => simp [wellPathed] at hw
    | jstr s => simp [wellPathed] at hw

/-- Splitting an `_Attr.maybe` traversal at an intermediate point. -/
theorem maybeGo_append : ∀ (p1 : List String) (v : JVal) (p2 : List String),
    maybeGo v (p1 ++ p2) =
      match maybeGo v p1 with
      | .error e => .error e
      | .ok none => .ok none
      | .ok (some w) => maybeGo w p2 := by
  intro p1
  induction p1 with
  | nil => intro v p2; simp [maybeGo]
  | cons p rest ih =>
    intro v p2
    simp only [List.cons_append, maybeGo]
    cases hg : pyGet v p with
    | error e => rfl
    | ok v' =>
      by_cases hn : pyIsNone v'
      · simp [hn]
      · simp only [if_neg hn]
        exact ih v' p2

/-- Every payload `_module_cmd_payload` successfully builds carries the given
`moduleMsg` inside the fixed JSON-RPC envelope. -/
theorem payload_msg (d : Device) (m : Option JVal) (msg : List (String × JVal))
    (p : Payload) (h : d._module_cmd_payload m msg = .ok p) :
    p.moduleMsg = msg ∧ p.method = "gdoModuleCommand" ∧ p.msgType = 16 ∧
    p.jsonrpc = "2.0" ∧ p.topic = d.varName := by
  cases m with
  | none => simp [Device._module_cmd_payload] at h
  | some md =>
    simp only [Device._module_cmd_payload] at h
    cases hm : _Module.module md with
    | error e => rw [hm] at h; simp at h
    | ok mt =>
      cases hp : _Module.port md with
      | error e => rw [hm, hp] at h; simp at h
      | ok pt =>
        rw [hm, hp] at h
        simp only [Except.ok.injEq] at h
        subst h
        exact ⟨rfl, rfl, rfl, rfl, rfl⟩

/-! Claim theorems. -/

/-- C1, counterexample: `_Attr.maybe` is claimed never to fail with an error,
returning not-found whenever a prefix of the path is missing; but on the tree
`{"a": 5}` with path `["a", "b"]` the key `"b"` is missing (the traversal
reaches the non-dict leaf `5`) and the lookup raises `AttributeError`
(`.error ()`) instead of returning not-found (`.ok none`). -/
theorem C1_maybe_counterexample :
    _Attr.maybe (.jobj [("a", .jint 5)]) ["a", "b"] = .error () ∧
    (Except.error () : Except Unit (Option JVal)) ≠ .ok none :=
  ⟨rfl, fun h => Except.noConfusion h⟩

/-- C1, amended: for every attribute tree `T` and key path `P` whose traversal
stays within nested dicts (it never drills into a non-dict value), the lookup
never fails: it returns not-found exactly when `T` is null/absent or the
traversal meets a missing or null entry, and the leaf value otherwise,
regardless of path length.  (When the path does drill into a non-dict value,
the code raises an `AttributeError` instead, as the counterexample shows.) -/
theorem C1_maybe_wellPathed (d : JVal) (path : List String)
    (h : pyIsNone d = true ∨ wellPathed d path = true) :
    _Attr.maybe d path = .ok (lookupPath d path) := by
  by_cases hd : pyIsNone d = true
  · have hdn : d = .jnull := by cases d <;> simp [pyIsNone] at hd ⊢
    subst hdn
    cases path <;> simp [_Attr.maybe, _Attr.valid, pyIsNone, lookupPath]
  · have hb : pyIsNone d = false := by simpa using hd
    have hw : wellPathed d path = true := h.resolve_left hd
    simp only [_Attr.maybe, _Attr.valid, hb]
    simpa using maybeGo_wellPathed path d hb hw

/-- Concrete tree used as witness input for C1. -/
def treeC1 : JVal := .jobj [("a", .jobj [("value", .jint 7)])]

/-- C1, witness: the amended theorem applied at a concrete two-level tree. -/
theorem C1_maybe_wellPathed_witness :
    _Attr.maybe treeC1 ["a", "value"] = .ok (some (.jint 7)) :=
  (C1_maybe_wellPathed treeC1 ["a", "value"] (Or.inr rfl)).trans rfl

/-- C2: the door status decoder yields "closed" for code 0, "open" for 1,
"closing" for 2 and "opening" for every other code, including when the stored
`doorState` value is absent (empty module data or a null attribute tree). -/
theorem C2_door_status_decode :
    (∀ c : Int,
      _Door.door_status (.jobj [("doorState", .jobj [("value", .jint c)])]) =
        .ok (if c = 0 then "closed" else if c = 1 then "open"
             else if c = 2 then "closing" else "opening")) ∧
    _Door.door_status (.jobj []) = .ok "opening" ∧
    _Door.door_status .jnull = .ok "opening" := by
  refine ⟨fun c => ?_, rfl, rfl⟩
  have h : _Door.door_status (.jobj [("doorState", .jobj [("value", .jint c)])]) =
      .ok (if c == 0 then "closed" else if c == 1 then "open"
           else if c == 2 then "closing" else "opening") := rfl
  rw [h]
  simp only [beq_iff_eq]

/-- C3: the payload built by `cmd_preset_pos` carries `presetPosition` equal
to `max(0, min(m, x))` for requested position `x` and reported max position
`m`, and when the max position is not found the encoded value is `0` (in
Python 2 `None` sorts below every number, so the clamp collapses to 0). -/
theorem C3_preset_pos_clamp :
    (∀ (d : Device) (dd : JVal) (m x : Int) (p : Payload),
      d.door = some dd →
      _Door.max_pos dd = .ok (some (.jint m)) →
      d.cmd_preset_pos x = .ok p →
      p.moduleMsg = [("presetPosition", .jint (max 0 (min m x)))]) ∧
    (∀ (d : Device) (dd : JVal) (x : Int) (p : Payload),
      d.door = some dd →
      _Door.max_pos dd = .ok none →
      d.cmd_preset_pos x = .ok p →
      p.moduleMsg = [("presetPosition", .jint 0)]) := by
  constructor
  · intro d dd m x p hdoor hmax hcmd
    simp only [Device.cmd_preset_pos, Device.moduleAttr, hdoor, hmax] at hcmd
    exact (payload_msg d (some dd) _ p hcmd).1
  · intro d dd x p hdoor hmax hcmd
    simp only [Device.cmd_preset_pos, Device.moduleAttr, hdoor, hmax] at hcmd
    exact (payload_msg d (some dd) _ p hcmd).1

/-- Door data used as witness input for C3. -/
def doorTreeC3 : JVal := .jobj [("maxDoorPosition", .jobj [("value", .jint 100)])]

/-- Device with a door reporting max position 100, for the C3 witness. -/
def devC3 : Device := { varName := "g", door := some doorTreeC3 }

/-- Device whose door reports no max position, for the C3 witness. -/
def devC3n : Device := { varName := "g", door := some (.jobj []) }

/-- Payload built by `devC3.cmd_preset_pos 150`. -/
def pC3 : Payload :=
  { jsonrpc := "2.0", method := "gdoModuleCommand", msgType := 16,
    moduleType := none, portId := none, topic := "g",
    moduleMsg := [("presetPosition", .jint 100)] }

/-- Payload built by `devC3n.cmd_preset_pos 150`. -/
def pC3n : Payload :=
  { jsonrpc := "2.0", method := "gdoModuleCommand", msgType := 16,
    moduleType := none, portId := none, topic := "g",
    moduleMsg := [("presetPosition", .jint 0)] }

/-- C3, witness: requesting 150 with max 100 encodes 100; with the max
position missing it encodes 0. -/
theorem C3_preset_pos_clamp_witness :
    pC3.moduleMsg = [("presetPosition", .jint (max 0 (min 100 150)))] ∧
    pC3n.moduleMsg = [("presetPosition", .jint 0)] :=
  ⟨C3_preset_pos_clamp.1 devC3 doorTreeC3 100 150 pC3 rfl rfl rfl,
   C3_preset_pos_clamp.2 devC3n (.jobj []) 150 pC3n rfl rfl rfl⟩

/-- C4: `cmd_vacation` reads `self.vacation`, an attribute no construction
path of `Device` ever assigns (unlike the door module, through which vacation
status is read), so invoking it raises `AttributeError` for every device and
every boolean input instead of returning a payload. -/
theorem C4_cmd_vacation_fails (d : Device) (b : Bool) :
    d.cmd_vacation b = .error () := rfl

/-- Device with a door module carrying module and port ids, for C5. -/
def devC5 : Device :=
  { varName := "gdo",
    door := some (.jobj [("moduleId", .jobj [("value", .jint 5)]),
                         ("portId", .jobj [("value", .jint 7)])]) }

/-- C5, counterexample: the open command's `doorCommand` field is the JSON
string "1", not the integer 1 as claimed. -/
theorem C5_door_command_counterexample :
    (devC5.cmd_open).map Payload.moduleMsg = .ok [("doorCommand", .jstr "1")] ∧
    (devC5.cmd_open).map Payload.moduleMsg ≠ .ok [("doorCommand", .jint 1)] := by
  constructor
  · rfl
  · intro h
    rw [show (devC5.cmd_open).map Payload.moduleMsg =
        .ok [("doorCommand", JVal.jstr "1")] from rfl] at h
    simp only [Except.ok.injEq, List.cons.injEq, Prod.mk.injEq] at h
    exact JVal.noConfusion h.1.2

/-- C5, amended: for every device whose command builders succeed, the open,
close and preset-to-default payloads carry the door command field
`doorCommand` with the fixed codes encoded as the JSON strings "1", "0" and
"2" respectively (not as integers). -/
theorem C5_door_command_strings (d : Device) :
    (∀ p : Payload, d.cmd_open = .ok p →
      p.moduleMsg = [("doorCommand", .jstr "1")]) ∧
    (∀ p : Payload, d.cmd_close = .ok p →
      p.moduleMsg = [("doorCommand", .jstr "0")]) ∧
    (∀ p : Payload, d.cmd_preset = .ok p →
      p.moduleMsg = [("doorCommand", .jstr "2")]) := by
  refine ⟨fun p h => ?_, fun p h => ?_, fun p h => ?_⟩
  · simp only [Device.cmd_open, Device.moduleAttr] at h
    exact (payload_msg d d.door _ p h).1
  · simp only [Device.cmd_close, Device.moduleAttr] at h
    exact (payload_msg d d.door _ p h).1
  · simp only [Device.cmd_preset, Device.moduleAttr] at h
    exact (payload_msg d d.door _ p h).1

/-- The payload `devC5` builds for door command code `c`. -/
def pC5 (c : String) : Payload :=
  { jsonrpc := "2.0", method := "gdoModuleCommand", msgType := 16,
    moduleType := some (.jint 5), portId := some (.jint 7), topic := "gdo",
    moduleMsg := [("doorCommand", .jstr c)] }

/-- C5, witness: the amended theorem applied to a concrete device. -/
theorem C5_door_command_strings_witness :
    (pC5 "1").moduleMsg = [("doorCommand", .jstr "1")] ∧
    (pC5 "0").moduleMsg = [("doorCommand", .jstr "0")] ∧
    (pC5 "2").moduleMsg = [("doorCommand", .jstr "2")] :=
  ⟨(C5_door_command_strings devC5).1 (pC5 "1") rfl,
   (C5_door_command_strings devC5).2.1 (pC5 "0") rfl,
   (C5_door_command_strings devC5).2.2 (pC5 "2") rfl⟩

/-- The C6 scenario: one key per module category plus one unrecognized key. -/
def scenarioAttrs : List (String × JVal) :=
  [("masterUnit", .jint 1), ("backupCharger_1", .jint 2), ("garageDoor_8", .jint 3),
   ("fan_1", .jint 4), ("wifiModule_2", .jint 5), ("garageLight_3", .jint 6),
   ("mysteryModule_7", .jint 7)]

/-- C6: device construction classifies every key into at most one module
category (the six classification conditions are pairwise exclusive); a key
matching no category only extends the logged-unknown list, never failing; and
for a module map with one key per category plus one unrecognized key the
resulting device exposes exactly the typed module views with the single
unknown key reported. -/
theorem C6_device_init :
    (∀ (k : String) (i j : Fin 6),
      condAt i k = true → condAt j k = true → i = j) ∧
    (∀ (d : Device) (log : List String) (k : String) (v : JVal),
      (∀ i : Fin 6, condAt i k = false) →
      initStep (d, log) (k, v) = (d, log ++ [k])) ∧
    Device.init "gdo1" scenarioAttrs =
      ({ varName := "gdo1", master := some (.jint 1), charger := some (.jint 2),
         door := some (.jint 3), fan := some (.jint 4), wifi := some (.jint 5),
         light := some (.jint 6) }, ["mysteryModule_7"]) := by
  refine ⟨?_, ?_, rfl⟩
  · intro k i j hi hj
    fin_cases i <;> fin_cases j <;>
      first
      | rfl
      | exact (master_excl k hi hj rfl).elim
      | exact (master_excl k hj hi rfl).elim
      | exact (startswith_excl k hi hj rfl rfl).elim
  · intro d log k v h
    have h0 : (k == "masterUnit") = false := h 0
    have h1 : startswith k "backupCharger_" = false := h 1
    have h2 : startswith k "garageDoor_" = false := h 2
    have h3 : startswith k "fan_" = false := h 3
    have h4 : startswith k "wifiModule_" = false := h 4
    have h5 : startswith k "garageLight_" = false := h 5
    simp [initStep, h0, h1, h2, h3, h4, h5]

/-- C6, witness: the fan condition matches only itself, and the unrecognized
scenario key extends the log without touching the modules. -/
theorem C6_device_init_witness :
    ((3 : Fin 6) = 3) ∧
    initStep ({ varName := "g" }, []) ("mysteryModule_7", .jnull) =
      ({ varName := "g" }, ["mysteryModule_7"]) :=
  ⟨C6_device_init.1 "fan_1" 3 3 rfl rfl,
   C6_device_init.2.1 { varName := "g" } [] "mysteryModule_7" .jnull
     (fun i => by fin_cases i <;> rfl)⟩

/-- C7: for every parsed handshake reply that is empty, lacks `params`, or has
`params.authorized` not true (not truthy), client construction fails with an
error, and the already-opened socket is closed before the error is reported:
the action trace ends with the socket close (and the logout attempted by
`close`) and the outcome is an error, whether or not the logout succeeds. -/
theorem C7_handshake_failure (reply : JVal) (lf : Bool)
    (hb : badHandshakeReply reply) :
    ∃ e, clientInitHandshake reply lf =
      ([.connect, .send, .closeSocket, .logout], .error e) := by
  have herr : ∃ e0, wsAuthCheck reply = .error e0 := by
    rcases hb with h | ⟨fs, h, hp⟩ | ⟨fs, pfs, h, hp, ha⟩
    · subst h
      exact ⟨"no socket auth returned", rfl⟩
    · subst h
      by_cases ht : pyTruthy (.jobj fs)
      · refine ⟨"no socket auth params received", ?_⟩
        simp [wsAuthCheck, ht, pyGet, hp, pyTruthy]
        intro hfs
        subst hfs
        simp [pyTruthy] at ht
      · exact ⟨"no socket auth returned", by simp [wsAuthCheck, ht]⟩
    · subst h
      by_cases ht : pyTruthy (.jobj fs)
      · by_cases htp : pyTruthy (.jobj pfs)
        · refine ⟨"socket not authorized", ?_⟩
          simp [wsAuthCheck, ht, pyGet, hp, htp, ha]
        · refine ⟨"no socket auth params received", ?_⟩
          simp [wsAuthCheck, ht, pyGet, hp, htp]
      · exact ⟨"no socket auth returned", by simp [wsAuthCheck, ht]⟩
  obtain ⟨e0, he⟩ := herr
  exact ⟨if lf then "logout failed" else e0, by simp [clientInitHandshake, he]⟩

/-- C7, witness: the exact reply of end-to-end scenario 5. -/
theorem C7_handshake_failure_witness :
    ∃ e, clientInitHandshake
        (.jobj [("params", .jobj [("authorized", .jbool false)])]) false =
      ([.connect, .send, .closeSocket, .logout], .error e) :=
  C7_handshake_failure _ false (Or.inr (Or.inr ⟨_, _, rfl, rfl, rfl⟩))

/-- C8: for every requested fan speed `x`, the payload built by `cmd_fan`
carries a speed field equal to `max(0, min(100, x))`. -/
theorem C8_fan_speed_clamp (d : Device) (x : Int) (p : Payload)
    (h : d.cmd_fan x = .ok p) :
    p.moduleMsg = [("speed", .jint (max 0 (min 100 x)))] := by
  have hc : min 100 (max 0 x) = max 0 (min 100 x) := by omega
  simp only [Device.cmd_fan, Device.moduleAttr] at h
  have hm := (payload_msg d d.fan _ p h).1
  rw [hm, hc]

/-- Device with a fan module, for the C8 witness. -/
def devC8 : Device := { varName := "g", fan := some (.jobj []) }

/-- Payload built by `devC8.cmd_fan 150`. -/
def pC8 : Payload :=
  { jsonrpc := "2.0", method := "gdoModuleCommand", msgType := 16,
    moduleType := none, portId := none, topic := "g",
    moduleMsg := [("speed", .jint 100)] }

/-- C8, witness: requesting speed 150 encodes 100. -/
theorem C8_fan_speed_clamp_witness :
    pC8.moduleMsg = [("speed", .jint (max 0 (min 100 150)))] :=
  C8_fan_speed_clamp devC8 150 pC8 rfl

/-- C9: the door error decoder yields no-error for op-mode code 0, "error"
for 1, "locked" for 2, and no-error for every other code, including when the
code is absent. -/
theorem C9_door_error_decode :
    (∀ c : Int,
      _Door.door_error (.jobj [("opMode", .jobj [("value", .jint c)])]) =
        .ok (if c = 0 then none else if c = 1 then some "error"
             else if c = 2 then some "locked" else none)) ∧
    _Door.door_error (.jobj []) = .ok none ∧
    _Door.door_error .jnull = .ok none := by
  refine ⟨fun c => ?_, rfl, rfl⟩
  have h : _Door.door_error (.jobj [("opMode", .jobj [("value", .jint c)])]) =
      .ok (if c == 0 then none else if c == 1 then some "error"
           else if c == 2 then some "locked" else none) := rfl
  rw [h]
  simp only [beq_iff_eq]

/-- C10: whenever a lookup reaches a dict that binds key `k` explicitly to
null, continuing the path through `k` returns not-found, for the final key
and for intermediate keys alike; since `dictGet` yields null both for a
missing key and for an explicit null binding, callers cannot distinguish the
two cases. -/
theorem C10_null_binding_not_found (d : JVal) (p1 : List String)
    (fs : List (String × JVal)) (k : String) (p2 : List String)
    (h1 : _Attr.maybe d p1 = .ok (some (.jobj fs)))
    (h2 : dictGet fs k = .jnull) :
    _Attr.maybe d (p1 ++ k :: p2) = .ok none := by
  have hd : pyIsNone d = false := by
    by_contra hc
    have hdt : pyIsNone d = true := by simpa using hc
    simp [_Attr.maybe, _Attr.valid, hdt] at h1
  have hgo : maybeGo d p1 = .ok (some (.jobj fs)) := by
    simpa [_Attr.maybe, _Attr.valid, hd] using h1
  have happ := maybeGo_append p1 d (k :: p2)
  rw [hgo] at happ
  simp only [_Attr.maybe, _Attr.valid, hd, Bool.not_false, if_pos] at h1 ⊢
  rw [happ]
  simp [maybeGo, pyGet, h2, pyIsNone]

/-- C10, witness: a key bound explicitly to null reads as not-found. -/
theorem C10_null_binding_not_found_witness :
    _Attr.maybe (.jobj [("a", .jnull)]) ["a"] = .ok none :=
  C10_null_binding_not_found (.jobj [("a", .jnull)]) [] [("a", .jnull)] "a" []
    rfl rfl

end Greendo
